import Mathlib

/-!
Verification development for the teleop_lerobot repository.

Shallow embedding of the concurrency-free core of the code:
`blockly_manager.py` (RobotAPI, BlocklyManager.execute_python_code),
`camera_manager.py` (CameraStream), `teleoperation_manager.py`
(TeleoperationManager), and the `/api/blockly/execute` endpoint of
`webserver.py` (execute_code).  Threads are modelled by explicit step
functions on state records; side effects (device disconnects, sleeps,
loop stop/start calls) are modelled by explicit effect traces; exceptions
raised by external devices are modelled by Boolean failure flags on the
device records, and `try/except` blocks by the corresponding case splits.
-/

namespace TeleopLerobot

/-- Python dict of motor name to scalar position, in insertion order. -/
abbrev Dict := List (String × Float)

/-- Python dict update `d[k] = v`: overwrite in place when the key exists,
append otherwise (insertion order preserved, as for Python dicts). -/
def dictSet (d : Dict) (k : String) (v : Float) : Dict :=
  if d.any (fun kv => kv.1 = k) then
    d.map (fun kv => if kv.1 = k then (k, v) else kv)
  else
    d ++ [(k, v)]

/-- An external hardware device (leader or follower arm).  The Boolean
flags model whether its `disconnect()` / `send_action()` calls raise. -/
structure Device where
  disconnectFails : Bool
  sendFails : Bool
deriving DecidableEq, Repr

/-! ## blockly_manager.py : RobotAPI -/

/-- State of `RobotAPI` (blockly_manager.py lines 25-38): an optional
connected robot handle and the cached joint positions (`[0.0] * 6`).
The handle carries the motor-name list of `self.robot.bus.motors` and a
flag for whether `send_action` raises. -/
structure RobotAPI where
  robotMotorNames : List String
  robotSendFails : Bool
  robotConnected : Bool
  positions : List Float

/-- Method `RobotAPI.move_joint` (blockly_manager.py lines 96-137).
Out-of-range joint indices (`joint < 0 or joint >= 6`) log and return
without touching any state.  With a connected robot, a joint index at or
beyond the motor count also returns untouched; a raising `send_action`
is caught by the `try/except`, leaving the position cache unchanged
(the cache write follows the send in the source).  Without a robot
(simulation mode) the cache entry is simply overwritten. -/
def RobotAPI.move_joint (api : RobotAPI) (joint : Int) (angle : Float) : RobotAPI :=
  if joint < 0 ∨ 6 ≤ joint then api
  else if api.robotConnected then
    if (api.robotMotorNames.length : Int) ≤ joint then api
    else if api.robotSendFails then api
    else { api with positions := api.positions.set joint.toNat angle }
  else
    { api with positions := api.positions.set joint.toNat angle }

/-- Method `RobotAPI._update_positions` (blockly_manager.py lines 84-94): with a
connected robot, replace the cache by the freshly read observation
(`readOk` models whether `get_observation` raises; a raise is caught and
leaves the cache as it was). -/
def RobotAPI.updatePositions (api : RobotAPI) (readOk : Bool) (obs : List Float) : RobotAPI :=
  if api.robotConnected then
    if readOk then { api with positions := obs } else api
  else api

/-- Method `RobotAPI.get_joint_position` (blockly_manager.py lines 139-156).
Out-of-range joint indices log and return `0.0` before any device
access.  Otherwise, with a connected robot the cache is refreshed first,
and the cached entry is returned. -/
def RobotAPI.get_joint_position (api : RobotAPI) (joint : Int)
    (readOk : Bool) (obs : List Float) : Float × RobotAPI :=
  if joint < 0 ∨ 6 ≤ joint then (0.0, api)
  else
    let api2 := api.updatePositions readOk obs
    (api2.positions.getD joint.toNat 0.0, api2)

/-! ## blockly_manager.py : BlocklyManager.execute_python_code -/

/-- The keys of the `__builtins__` dict handed to `exec` by
`BlocklyManager.execute_python_code` (blockly_manager.py lines 409-424),
in source order. -/
def scriptBuiltins : List String :=
  ["__import__", "print", "range", "len", "enumerate", "str", "int",
   "float", "list", "dict", "abs", "min", "max", "round"]

/-- The non-builtin globals handed to `exec` by
`BlocklyManager.execute_python_code` (blockly_manager.py lines 425-427). -/
def scriptGlobals : List String := ["time", "robot", "positions"]

/-- Observable behaviour of one `exec(code, ...)` run: either it returns
normally with the text it printed, its final local variables (already
stringified) and its wall-clock duration in seconds, or it raises an
uncaught exception after printing some text, with the exception's
message and type name. -/
inductive ScriptBehavior where
  | ok (output : String) (locals : List (String × String)) (durationSeconds : Nat)
  | raises (output : String) (errorMsg : String) (errorType : String)
      (durationSeconds : Nat)
deriving DecidableEq, Repr

/-- The text a script prints before finishing or failing. -/
def ScriptBehavior.captured : ScriptBehavior → String
  | .ok out _ _ => out
  | .raises out _ _ _ => out

/-- Result dict of `BlocklyManager.execute_python_code`: the union of
the keys of the success dict (lines 436-440) and the failure dict
(lines 445-450), absent keys as `none`. -/
structure ScriptResult where
  success : Bool
  output : String
  error : Option String
  error_type : Option String
  vars : Option (List (String × String))
deriving DecidableEq, Repr

/-- Method `BlocklyManager.execute_python_code` (blockly_manager.py lines
387-459).  The `timeout` parameter is faithfully carried over from the
source signature (line 387), where it is received but never read: no
mechanism in the body bounds the `exec` call.  On normal return the
result carries `success=True`, the captured output (or a fixed message
when nothing was printed: `output or '...'`, line 438) and the
stringified locals whose names do not start with an underscore.  On an
uncaught exception the `except` branch returns `success=False`, the
exception message and type name, and the output captured so far. -/
def execute_python_code (b : ScriptBehavior) (timeout : Nat) : ScriptResult :=
  match b with
  | .ok out locals _d =>
      { success := true
        output := if out = "" then "Execution completed successfully" else out
        error := none
        error_type := none
        vars := some (locals.filter fun kv => !(kv.1.startsWith "_")) }
  | .raises out msg ty _d =>
      { success := false
        output := out
        error := some msg
        error_type := some ty
        vars := none }

/-! ## camera_manager.py : CameraStream -/

/-- A captured camera frame (raw pixel buffer). -/
abbrev Frame := List Nat

/-- State of a `CameraStream` (camera_manager.py lines 20-32): the
optional open capture handle, the latest frame, running flag, frame and
error counters, last-frame timestamp, and whether a capture thread
object exists (the source never clears `self.thread`). -/
structure CameraStream where
  capture : Option Unit
  current_frame : Option Frame
  is_running : Bool
  thread : Bool
  last_frame_time : Nat
  frame_count : Nat
  error_count : Nat
deriving DecidableEq, Repr

/-- Outcome of one `self.capture.read()` call inside the capture loop:
a successful frame, a `ret == False` miss, or a raised exception
(caught by the loop's `except` branch). -/
inductive ReadResult where
  | ok (f : Frame)
  | fail
  | exn
deriving DecidableEq, Repr

/-- One iteration of `CameraStream._capture_loop` (camera_manager.py
lines 81-109), guarded by the `while self.is_running` condition.  A
successful read stores the frame, bumps `frame_count`, records the time
and resets `error_count` to 0.  A failed read (or an exception in the
body) increments `error_count`; only when the counter exceeds 10
(`if self.error_count > 10`) does the loop clear `is_running` and
break. -/
def CameraStream.captureStep (s : CameraStream) (r : ReadResult) (now : Nat) :
    CameraStream :=
  if !s.is_running then s
  else
    match r with
    | .ok f =>
        { s with current_frame := some f, frame_count := s.frame_count + 1,
                 last_frame_time := now, error_count := 0 }
    | .fail =>
        let s' := { s with error_count := s.error_count + 1 }
        if s'.error_count > 10 then { s' with is_running := false } else s'
    | .exn =>
        let s' := { s with error_count := s.error_count + 1 }
        if s'.error_count > 10 then { s' with is_running := false } else s'

/-- A run of the capture loop over a sequence of read outcomes with
their wall-clock times. -/
def CameraStream.captureRun (s : CameraStream) (rs : List (ReadResult × Nat)) :
    CameraStream :=
  rs.foldl (fun st p => st.captureStep p.1 p.2) s

/-- Side effects of `CameraStream.stop`. -/
inductive CamEffect where
  | joinThread
  | releaseCapture
deriving DecidableEq, Repr

/-- Method `CameraStream.stop` (camera_manager.py lines 67-79): clear
`is_running`, join the thread when one exists (joining an already-dead
thread returns immediately and raises nothing), then release and clear
the capture handle when it is still open.  The thread field itself is
never cleared by the source. -/
def CameraStream.stop (s : CameraStream) : CameraStream × List CamEffect :=
  let effs1 : List CamEffect := if s.thread then [.joinThread] else []
  let effs2 : List CamEffect := if s.capture.isSome then [.releaseCapture] else []
  ({ s with is_running := false, capture := none }, effs1 ++ effs2)

/-- Method `CameraStream.get_frame` (camera_manager.py lines 111-114): a copy
of the latest frame, or `none` when no frame was ever captured.  (Copy
aliasing is analysed separately with the heap model below.) -/
def CameraStream.get_frame (s : CameraStream) : Option Frame :=
  match s.current_frame with
  | some f => some f
  | none => none

/-! ## teleoperation_manager.py : TeleoperationManager -/

/-- State of `TeleoperationManager` (teleoperation_manager.py lines
50-66): optional leader (`teleop`) and follower (`robot`) devices, the
running flag, whether a live loop thread exists, the published
observation and action snapshots, the robot-action processor
(`self.robot_action_processor`, an opaque function from a (action,
observation) pair to an action) and the teleop-action processor, plus
the target fps. -/
structure TeleoperationManager where
  teleop : Option Device
  robot : Option Device
  is_running : Bool
  threadAlive : Bool
  current_observation : Option Dict
  current_action : Option Dict
  teleop_action_processor : Option (Dict → Dict → Dict)
  robot_action_processor : Option (Dict → Dict → Dict)
  fps : Nat

/-- Application of `self.robot_action_processor` exactly as the source
calls it: `processed = self.robot_action_processor((action, obs))` when
the processor is present, the identity otherwise
(teleoperation_manager.py lines 301-304). -/
def TeleoperationManager.procAction (m : TeleoperationManager)
    (action obs : Dict) : Dict :=
  match m.robot_action_processor with
  | some p => p action obs
  | none => action

/-- Side effects of `TeleoperationManager.stop`: the bounded thread
join and the two device disconnect attempts, each disconnect tagged
with whether the underlying `disconnect()` call succeeded (a `False`
tag is the caught-and-logged exception of the source's `except`
branches). -/
inductive TeleopEffect where
  | joinThread
  | disconnectLeader (ok : Bool)
  | disconnectRobot (ok : Bool)
deriving DecidableEq, Repr

/-- Method `TeleoperationManager.stop` (teleoperation_manager.py lines
185-216).  A second call finds `is_running` already false and returns
at once.  Otherwise: clear the flag, join a live thread, attempt to
disconnect the leader and then the follower — each attempt in its own
`try/except`, so a raising leader disconnect never prevents the
follower disconnect — and clear the device and snapshot fields.  The
thread field is left as-is by the source. -/
def TeleoperationManager.stop (m : TeleoperationManager) :
    TeleoperationManager × List TeleopEffect :=
  if !m.is_running then (m, [])
  else
    let effs1 : List TeleopEffect := if m.threadAlive then [.joinThread] else []
    let effs2 : List TeleopEffect :=
      match m.teleop with
      | some d => [.disconnectLeader (!d.disconnectFails)]
      | none => []
    let effs3 : List TeleopEffect :=
      match m.robot with
      | some d => [.disconnectRobot (!d.disconnectFails)]
      | none => []
    ({ m with is_running := false, teleop := none, robot := none,
              current_observation := none, current_action := none },
     effs1 ++ effs2 ++ effs3)

/-- Method `TeleoperationManager.get_current_action` (teleoperation_manager.py
lines 254-262): `self.current_action.copy() if self.current_action else
None` — note the Python truthiness test, under which an empty dict also
yields `None`.  (Copy aliasing is analysed with the heap model below.) -/
def TeleoperationManager.get_current_action (m : TeleoperationManager) :
    Option Dict :=
  match m.current_action with
  | some d => if d.isEmpty then none else some d
  | none => none

/-- Python `str.replace('.pos', '')` on a character list: scan left to
right, dropping each (non-overlapping) occurrence of `.pos`. -/
def dropPosChars : List Char → List Char
  | [] => []
  | '.' :: 'p' :: 'o' :: 's' :: rest => dropPosChars rest
  | c :: rest => c :: dropPosChars rest

/-- Python `k.replace('.pos', '')` (teleoperation_manager.py line 293). -/
def stripPos (k : String) : String := ⟨dropPosChars k.data⟩

/-- The action dict built by `apply_leader_positions` from the caller's
positions (teleoperation_manager.py lines 291-296): for each entry, the
key with every `.pos` occurrence stripped and the key with `.pos`
re-appended are both set to the value. -/
def buildAction (positions : Dict) : Dict :=
  positions.foldl
    (fun acc kv =>
      let base := stripPos kv.1
      dictSet (dictSet acc base kv.2) (base ++ ".pos") kv.2)
    []

/-- The transform applied to externally injected positions by
`apply_leader_positions`: normalise the keys, then run the stored
robot-action processor on the normalised action and the current
observation (`self.current_observation or {}` — `none` and the empty
dict both give `{}`). -/
def TeleoperationManager.actionPipeline (m : TeleoperationManager)
    (positions : Dict) : Dict :=
  let obs :=
    match m.current_observation with
    | some o => if o.isEmpty then [] else o
    | none => []
  m.procAction (buildAction positions) obs

/-- Method `TeleoperationManager.apply_leader_positions`
(teleoperation_manager.py lines 279-316).  When the loop is not running
or no robot is attached, log and return `False` with the state
untouched.  Otherwise build the normalised action, process it through
the robot-action processor, and send it: a raising `send_action` is
caught by the `except`, returning `False` with the state untouched
(the `current_action` cache write follows the send in the source); on a
successful send the processed action is cached whole and `True` is
returned. -/
def TeleoperationManager.apply_leader_positions (m : TeleoperationManager)
    (positions : Dict) : Bool × TeleoperationManager :=
  if !m.is_running then (false, m)
  else
    match m.robot with
    | none => (false, m)
    | some dev =>
        let processed := m.actionPipeline positions
        if dev.sendFails then (false, m)
        else (true, { m with current_action := some processed })

/-- One iteration of `TeleoperationManager._teleop_loop`
(teleoperation_manager.py lines 144-183), given the fresh observation
and raw leader action read this cycle: the raw action runs through the
teleop-action processor and then the robot-action processor — the same
`robot_action_processor` used by `apply_leader_positions` — is sent,
and both snapshots are published together. -/
def TeleoperationManager.teleopLoopStep (m : TeleoperationManager)
    (obs rawAction : Dict) : TeleoperationManager :=
  if !m.is_running then m
  else
    let teleopAction :=
      match m.teleop_action_processor with
      | some p => p rawAction obs
      | none => rawAction
    let toSend := m.procAction teleopAction obs
    { m with current_observation := some obs, current_action := some toSend }

/-! ## webserver.py : the /api/blockly/execute endpoint -/

/-- Side effects performed by the `execute_code` endpoint, in order:
stopping teleoperation, one robot-connection attempt, one backoff sleep
(seconds), running the script, disconnecting the Blockly robot, and
restarting teleoperation. -/
inductive WebEffect where
  | stopTeleop
  | connectAttempt (i : Nat)
  | backoffSleep (seconds : Nat)
  | runScript
  | disconnectRobot
  | startTeleop
deriving DecidableEq, Repr

/-- The slice of the web server's `RobotState` that `execute_code`
touches: whether the Blockly subsystem is enabled and constructed, and
whether teleoperation is currently running (`state.is_running()`). -/
structure ServerState where
  blockly_enabled : Bool
  blockly_manager : Bool
  teleopRunning : Bool
deriving DecidableEq, Repr

/-- Environment of one `execute_code` request: which of the robot
re-connection attempts succeed (`connectOk i` is whether the `i`-th
`_initialize_robot()` call leaves a robot handle), and whether the
final `start_teleoperation()` restart succeeds. -/
structure ExecEnv where
  connectOk : Nat → Bool
  restartOk : Bool

/-- Response of the endpoint: an `HTTPException` with status code and
detail text, or a normal script-result payload. -/
inductive ExecResponse where
  | httpError (status : Nat) (detail : String)
  | ok (r : ScriptResult)
deriving DecidableEq, Repr

/-- One iteration of the connection-retry loop of `execute_code`
(webserver.py lines 876-889): skip if a previous attempt already
connected (`break`); otherwise record the attempt, and when it fails
and is not the last (`attempt < max_retries - 1`) sleep `retry_delay`
seconds, where the delay starts at `2.0` and grows by `1.0` per failed
attempt (so attempt `i` sleeps `2 + i` seconds). -/
def connectStep (ok : Nat → Bool) (acc : Bool × List WebEffect) (attempt : Nat) :
    Bool × List WebEffect :=
  if acc.1 then acc
  else
    let tr := acc.2 ++ [WebEffect.connectAttempt attempt]
    if ok attempt then (true, tr)
    else if attempt < 3 - 1 then (false, tr ++ [WebEffect.backoffSleep (2 + attempt)])
    else (false, tr)

/-- The full `for attempt in range(max_retries)` retry loop with
`max_retries = 3` (webserver.py lines 876-889), returning whether a
robot handle was obtained and the trace of attempts and sleeps. -/
def retryConnect (ok : Nat → Bool) : Bool × List WebEffect :=
  (List.range 3).foldl (connectStep ok) (false, [])

/-- The detail string of the device-unavailable failure
(webserver.py lines 891-895). -/
def deviceUnavailableDetail : String :=
  "Could not connect to robot after 3 attempts. Hardware may need more time to reset."

/-- The `/api/blockly/execute` endpoint `execute_code` (webserver.py
lines 856-916).  Without an enabled Blockly subsystem, reply 503
immediately.  Otherwise remember whether teleoperation was running and
stop it if so; retry the robot connection up to 3 times; when all
attempts fail raise the 503 device-unavailable `HTTPException`, else
run the script.  Either way the `finally` block disconnects the Blockly
robot and, exactly when teleoperation was running before, calls
`start_teleoperation()` again — after which the loop runs iff that
restart succeeded. -/
def execute_code (s : ServerState) (env : ExecEnv) (script : ScriptBehavior)
    (timeout : Nat) : ExecResponse × ServerState × List WebEffect :=
  if !s.blockly_enabled || !s.blockly_manager then
    (.httpError 503 "Blockly not available", s, [])
  else
    let was := s.teleopRunning
    let s1 : ServerState := if was then { s with teleopRunning := false } else s
    let pre : List WebEffect := if was then [.stopTeleop] else []
    let c := retryConnect env.connectOk
    let post : List WebEffect :=
      [.disconnectRobot] ++ (if was then [.startTeleop] else [])
    let s2 : ServerState :=
      if was then { s1 with teleopRunning := env.restartOk } else s1
    if !c.1 then
      (.httpError 503 deviceUnavailableDetail, s2, pre ++ c.2 ++ post)
    else
      (.ok (execute_python_code script timeout), s2,
       pre ++ c.2 ++ [.runScript] ++ post)

/-- The connection attempts recorded in an effect trace. -/
def connectAttemptsOf (tr : List WebEffect) : List Nat :=
  tr.filterMap fun e =>
    match e with
    | .connectAttempt i => some i
    | _ => none

/-- The backoff sleeps (in seconds) recorded in an effect trace. -/
def backoffsOf (tr : List WebEffect) : List Nat :=
  tr.filterMap fun e =>
    match e with
    | .backoffSleep d => some d
    | _ => none

/-! ## Heap model for the copy semantics of the read accessors

Python objects live on a heap and methods hand out references; the
`.copy()` calls in `get_current_action` and `get_frame` are modelled by
allocating a fresh heap cell holding an equal value and returning the
fresh address. -/

/-- A heap address. -/
abbrev Addr := Nat

/-- A heap of Python objects of one type: the address of an object is
its index in the allocation list. -/
structure Heap (α : Type) where
  objects : List α
deriving Repr

/-- Dereference an address. -/
def Heap.get [Inhabited α] (h : Heap α) (a : Addr) : α :=
  h.objects.getD a default

/-- Allocate a fresh object, returning the extended heap and the fresh
address. -/
def Heap.alloc (h : Heap α) (x : α) : Heap α × Addr :=
  (⟨h.objects ++ [x]⟩, h.objects.length)

/-- In-place mutation of the object at an address (what a caller does
to a returned dict or frame). -/
def Heap.mutate (h : Heap α) (a : Addr) (x : α) : Heap α :=
  ⟨h.objects.set a x⟩

/-- Method `TeleoperationManager.get_current_action` over the heap model
(teleoperation_manager.py lines 254-262): the manager's stored field is
an optional address of its current-action dict; a read with a truthy
(non-empty) stored dict allocates a `.copy()` and returns the fresh
address, never the stored one; the stored field itself is returned
unchanged. -/
def getCurrentActionRef (stored : Option Addr) (h : Heap Dict) :
    Option Addr × Option Addr × Heap Dict :=
  match stored with
  | none => (none, stored, h)
  | some a =>
      if (h.get a).isEmpty then (none, stored, h)
      else
        let (h', a') := h.alloc (h.get a)
        (some a', stored, h')

/-- Method `CameraStream.get_frame` over the heap model (camera_manager.py
lines 111-114): with a stored frame (the test is `is not None`, not
truthiness) allocate a `.copy()` and return the fresh address; the
stored field itself is returned unchanged. -/
def getFrameRef (stored : Option Addr) (h : Heap Frame) :
    Option Addr × Option Addr × Heap Frame :=
  match stored with
  | none => (none, stored, h)
  | some a =>
      let (h', a') := h.alloc (h.get a)
      (some a', stored, h')

/-! ## Theorems -/

/-- Claim C9: for every joint index outside `0..5`, `move_joint` is a
safe no-op — it raises nothing and leaves every cached joint position
(indeed the whole API state) unchanged — and `get_joint_position`
raises nothing and returns exactly `0.0` with the state unchanged. -/
theorem C9_out_of_range_joint_safe (api : RobotAPI) (joint : Int) (angle : Float)
    (readOk : Bool) (obs : List Float) (h : joint < 0 ∨ 6 ≤ joint) :
    api.move_joint joint angle = api ∧
    api.get_joint_position joint readOk obs = (0.0, api) := by
  constructor
  · unfold RobotAPI.move_joint
    rw [if_pos h]
  · unfold RobotAPI.get_joint_position
    rw [if_pos h]

/-- Witness for C9 at the concrete out-of-range joint index 6. -/
theorem C9_out_of_range_joint_safe_witness :
    (((6 : Int) < 0 ∨ (6 : Int) ≤ 6) ∧
      RobotAPI.move_joint ⟨[], false, false, [0.0, 0.0, 0.0, 0.0, 0.0, 0.0]⟩ 6 42.0 =
        ⟨[], false, false, [0.0, 0.0, 0.0, 0.0, 0.0, 0.0]⟩ ∧
      RobotAPI.get_joint_position ⟨[], false, false, [0.0, 0.0, 0.0, 0.0, 0.0, 0.0]⟩ 6 true [] =
        (0.0, ⟨[], false, false, [0.0, 0.0, 0.0, 0.0, 0.0, 0.0]⟩)) :=
  ⟨Or.inr (by decide),
   (C9_out_of_range_joint_safe ⟨[], false, false, [0.0, 0.0, 0.0, 0.0, 0.0, 0.0]⟩
      6 42.0 true [] (Or.inr (by decide))).1,
   (C9_out_of_range_joint_safe ⟨[], false, false, [0.0, 0.0, 0.0, 0.0, 0.0, 0.0]⟩
      6 42.0 true [] (Or.inr (by decide))).2⟩

/-- Claim C3 (code bug): the `timeout` argument of `execute_python_code`
is received but never read, so the result of a script execution is
identical for every timeout bound — in particular a script whose
wall-clock duration exceeds its bound is never terminated and still
reports success, contradicting the documented hard wall-clock bound. -/
theorem C3_timeout_never_enforced (b : ScriptBehavior) (t1 t2 : Nat)
    (out : String) (locals : List (String × String)) :
    execute_python_code b t1 = execute_python_code b t2 ∧
    (execute_python_code (.ok out locals (t1 + 1000)) t1).success = true := by
  constructor
  · cases b <;> rfl
  · rfl

/-- Claim C8: every script execution yields a result carrying the
captured output (the sole exception: a successful run that printed
nothing gets the fixed completion message instead of the empty string);
an uncaught script exception yields `success = false`, the structured
error kind and message, and exactly the output captured before the
failure — and the host returns this result rather than crashing. -/
theorem C8_result_reports_output_and_errors (b : ScriptBehavior) (t : Nat) :
    ((execute_python_code b t).output = b.captured ∨
      (b.captured = "" ∧ (execute_python_code b t).success = true ∧
        (execute_python_code b t).output = "Execution completed successfully")) ∧
    (∀ out msg ty d,
        (execute_python_code (.raises out msg ty d) t).success = false ∧
        (execute_python_code (.raises out msg ty d) t).error_type = some ty ∧
        (execute_python_code (.raises out msg ty d) t).error = some msg ∧
        (execute_python_code (.raises out msg ty d) t).output = out) := by
  refine ⟨?_, fun out msg ty d => ⟨rfl, rfl, rfl, rfl⟩⟩
  cases b with
  | ok out locals d =>
      by_cases h : out = ""
      · exact Or.inr ⟨h, rfl, by simp [execute_python_code, h]⟩
      · exact Or.inl (by simp [execute_python_code, ScriptBehavior.captured, h])
  | raises out msg ty d => exact Or.inl rfl

/-- Counterexample to claim C4 as stated: the builtins handed to the
script evaluation environment do contain a general import mechanism —
the key `__import__` is in the builtins dict (blockly_manager.py line
410, commented `# Allow imports` in the source). -/
theorem C4_counterexample_import_exposed : "__import__" ∈ scriptBuiltins := by
  simp [scriptBuiltins]

/-- Claim C4 as amended: the evaluation environment exposes a fixed
14-key builtin allowlist plus the globals `time`, `robot`, `positions`;
no direct filesystem or evaluation builtin (`open`, `exec`, `eval`,
`compile`, `input`) is exposed, but the allowlist does include
`__import__`, so scripts have a general import mechanism (and through
it can reach the filesystem and network). -/
theorem C4_amended_fixed_surface_includes_import :
    "__import__" ∈ scriptBuiltins ∧
    scriptBuiltins.length = 14 ∧
    "open" ∉ scriptBuiltins ∧
    "exec" ∉ scriptBuiltins ∧
    "eval" ∉ scriptBuiltins ∧
    "compile" ∉ scriptBuiltins ∧
    "input" ∉ scriptBuiltins ∧
    scriptGlobals.length = 3 := by
  refine ⟨by simp [scriptBuiltins], rfl, ?_, ?_, ?_, ?_, ?_, rfl⟩ <;>
    simp [scriptBuiltins]

/-- A freshly started camera stream (camera_manager.py lines 20-59):
capture open, no frame yet, running, thread started, counters zero. -/
def freshCamera : CameraStream :=
  { capture := some (), current_frame := none, is_running := true,
    thread := true, last_frame_time := 0, frame_count := 0, error_count := 0 }

/-- A failed read on a running stream with at most 9 prior consecutive
failures just bumps the counter. -/
theorem captureStep_fail_continue (s : CameraStream) (now : Nat)
    (h_run : s.is_running = true) (h : s.error_count + 1 ≤ 10) :
    s.captureStep ReadResult.fail now = { s with error_count := s.error_count + 1 } := by
  have h' : ¬ s.error_count + 1 > 10 := by omega
  simp [CameraStream.captureStep, h_run, h']

/-- A failed read on a running stream whose counter would exceed 10
bumps the counter and stops the loop. -/
theorem captureStep_fail_stop (s : CameraStream) (now : Nat)
    (h_run : s.is_running = true) (h : s.error_count + 1 > 10) :
    s.captureStep ReadResult.fail now =
      { s with error_count := s.error_count + 1, is_running := false } := by
  simp [CameraStream.captureStep, h_run, h]

/-- A run of consecutive failed reads keeps the loop alive as long as
the failure counter stays at or below 10. -/
theorem captureRun_fail_le (s : CameraStream) (n : Nat)
    (h_run : s.is_running = true) (h : s.error_count + n ≤ 10) :
    s.captureRun (List.replicate n (ReadResult.fail, 0)) =
      { s with error_count := s.error_count + n } := by
  induction n generalizing s with
  | zero => simp [CameraStream.captureRun]
  | succ n ih =>
      rw [List.replicate_succ]
      have hstep := captureStep_fail_continue s 0 h_run (by omega)
      have hrec := ih { s with error_count := s.error_count + 1 } h_run
        (by show s.error_count + 1 + n ≤ 10; omega)
      simp only [CameraStream.captureRun, List.foldl_cons] at *
      rw [hstep, hrec]
      congr 1
      omega

/-- Counterexample to claim C5 as stated: after exactly 10 consecutive
failed reads, a fresh camera loop has *not* stopped — it is still
running with a failure counter of 10, because the source only stops
once the counter exceeds 10. -/
theorem C5_counterexample_still_running_after_10 :
    (freshCamera.captureRun (List.replicate 10 (ReadResult.fail, 0))).is_running = true ∧
    (freshCamera.captureRun (List.replicate 10 (ReadResult.fail, 0))).error_count = 10 := by
  constructor <;> rfl

/-- Claim C5 as amended: each failed read increments the
consecutive-failure counter and any successful read resets it to 0;
the loop stops only once the counter exceeds 10, i.e. after exactly 11
consecutive read failures (after 10 it is still running), and once
stopped the loop body never runs again until an external start. -/
theorem C5_amended_loop_stops_after_11 (s : CameraStream)
    (h_run : s.is_running = true) (h_e : s.error_count = 0) :
    (∀ n, n ≤ 10 →
        (s.captureRun (List.replicate n (ReadResult.fail, 0))).is_running = true ∧
        (s.captureRun (List.replicate n (ReadResult.fail, 0))).error_count = n) ∧
    (s.captureRun (List.replicate 11 (ReadResult.fail, 0))).is_running = false ∧
    (∀ f now, (s.captureStep (ReadResult.ok f) now).error_count = 0) ∧
    (∀ s' : CameraStream, s'.is_running = false → ∀ r now, s'.captureStep r now = s') := by
  refine ⟨?_, ?_, ?_, ?_⟩
  · intro n hn
    rw [captureRun_fail_le s n h_run (by omega)]
    exact ⟨h_run, by simp [h_e]⟩
  · have h10 : s.captureRun (List.replicate 10 (ReadResult.fail, 0)) =
        { s with error_count := s.error_count + 10 } :=
      captureRun_fail_le s 10 h_run (by omega)
    have h11 : s.captureRun (List.replicate 11 (ReadResult.fail, 0)) =
        (s.captureRun (List.replicate 10 (ReadResult.fail, 0))).captureStep
          ReadResult.fail 0 := by
      rw [show (11 : Nat) = 10 + 1 from rfl, List.replicate_succ']
      unfold CameraStream.captureRun
      rw [List.foldl_append]
      rfl
    rw [h11, h10]
    rw [captureStep_fail_stop { s with error_count := s.error_count + 10 } 0 h_run
          (by show s.error_count + 10 + 1 > 10; omega)]
  · intro f now
    simp [CameraStream.captureStep, h_run]
  · intro s' hs' r now
    simp [CameraStream.captureStep, hs']

/-- Witness for C5 as amended, at the fresh camera state: 10 failures
leave it running, the 11th stops it, and a successful read resets the
counter. -/
theorem C5_amended_loop_stops_after_11_witness :
    freshCamera.is_running = true ∧ freshCamera.error_count = 0 ∧
    (freshCamera.captureRun (List.replicate 10 (ReadResult.fail, 0))).is_running = true ∧
    (freshCamera.captureRun (List.replicate 11 (ReadResult.fail, 0))).is_running = false ∧
    (freshCamera.captureStep (ReadResult.ok [7]) 5).error_count = 0 :=
  ⟨rfl, rfl,
   ((C5_amended_loop_stops_after_11 freshCamera rfl rfl).1 10 (by decide)).1,
   (C5_amended_loop_stops_after_11 freshCamera rfl rfl).2.1,
   (C5_amended_loop_stops_after_11 freshCamera rfl rfl).2.2.1 [7] 5⟩

/-- Claim C7: `stop()` is idempotent on both loops — a second call
finds the loop already stopped, changes nothing, performs no effect and
raises no error — and the ControlLoop's `stop()` attempts both device
disconnects independently: the leader and follower disconnect attempts
are both in the effect trace whatever the devices' failure flags, each
failure caught on its own. -/
theorem C7_stop_idempotent (m : TeleoperationManager) (c : CameraStream) :
    (TeleoperationManager.stop (TeleoperationManager.stop m).1).1 =
      (TeleoperationManager.stop m).1 ∧
    (TeleoperationManager.stop (TeleoperationManager.stop m).1).2 = [] ∧
    (CameraStream.stop (CameraStream.stop c).1).1 = (CameraStream.stop c).1 ∧
    (∀ l r, m.is_running = true → m.teleop = some l → m.robot = some r →
        TeleopEffect.disconnectLeader (!l.disconnectFails) ∈
          (TeleoperationManager.stop m).2 ∧
        TeleopEffect.disconnectRobot (!r.disconnectFails) ∈
          (TeleoperationManager.stop m).2) := by
  refine ⟨?_, ?_, ?_, ?_⟩
  · by_cases h : m.is_running <;> simp [TeleoperationManager.stop, h]
  · by_cases h : m.is_running <;> simp [TeleoperationManager.stop, h]
  · simp [CameraStream.stop]
  · intro l r hrun hl hr
    simp [TeleoperationManager.stop, hrun, hl, hr]

/-- Witness for C7: a manager with a live thread, a leader whose
disconnect raises and a healthy follower — the failing leader disconnect
is recorded and the follower disconnect is still attempted. -/
theorem C7_stop_idempotent_witness :
    (({ teleop := some ⟨true, false⟩, robot := some ⟨false, false⟩,
        is_running := true, threadAlive := true, current_observation := none,
        current_action := none, teleop_action_processor := none,
        robot_action_processor := none, fps := 60 } : TeleoperationManager).is_running
        = true) ∧
    (TeleopEffect.disconnectLeader false ∈
      (TeleoperationManager.stop
        { teleop := some ⟨true, false⟩, robot := some ⟨false, false⟩,
          is_running := true, threadAlive := true, current_observation := none,
          current_action := none, teleop_action_processor := none,
          robot_action_processor := none, fps := 60 }).2 ∧
     TeleopEffect.disconnectRobot true ∈
      (TeleoperationManager.stop
        { teleop := some ⟨true, false⟩, robot := some ⟨false, false⟩,
          is_running := true, threadAlive := true, current_observation := none,
          current_action := none, teleop_action_processor := none,
          robot_action_processor := none, fps := 60 }).2) :=
  ⟨rfl,
   (C7_stop_idempotent
      { teleop := some ⟨true, false⟩, robot := some ⟨false, false⟩,
        is_running := true, threadAlive := true, current_observation := none,
        current_action := none, teleop_action_processor := none,
        robot_action_processor := none, fps := 60 }
      freshCamera).2.2.2 ⟨true, false⟩ ⟨false, false⟩ rfl rfl rfl⟩

/-- Claim C6: when the loop is running with a robot attached and the
send succeeds, `apply_leader_positions` returns `true` and a subsequent
`get_current_action` read returns exactly the full result of passing
the positions through the manager's action-transform pipeline (the same
stored `robot_action_processor` the loop applies), never a
partially-applied action; the truthiness guard of
`get_current_action` makes the read faithful whenever the transformed
mapping is non-empty.  When the loop is not running, the call returns
`false` and the manager state — hence the current command — is
completely unchanged. -/
theorem C6_apply_external_target_roundtrip (m : TeleoperationManager)
    (positions : Dict) :
    (∀ dev, m.is_running = true → m.robot = some dev → dev.sendFails = false →
        (m.actionPipeline positions).isEmpty = false →
        (m.apply_leader_positions positions).1 = true ∧
        (m.apply_leader_positions positions).2.get_current_action =
          some (m.actionPipeline positions)) ∧
    (m.is_running = false →
        (m.apply_leader_positions positions).1 = false ∧
        (m.apply_leader_positions positions).2 = m) := by
  constructor
  · intro dev hrun hrob hsend hne
    constructor
    · simp [TeleoperationManager.apply_leader_positions, hrun, hrob, hsend]
    · simp [TeleoperationManager.apply_leader_positions, hrun, hrob, hsend,
            TeleoperationManager.get_current_action, hne]
  · intro hrun
    constructor <;> simp [TeleoperationManager.apply_leader_positions, hrun]

/-- A concrete running manager whose robot-action processor is the
stored pipeline stage (here instantiated with the identity transform),
used to witness C6. -/
def runningManager : TeleoperationManager :=
  { teleop := some ⟨false, false⟩, robot := some ⟨false, false⟩,
    is_running := true, threadAlive := true, current_observation := none,
    current_action := none, teleop_action_processor := none,
    robot_action_processor := some (fun a _ => a), fps := 60 }

/-- Witness for C6 at a concrete running manager and one injected
position: the call succeeds and the current command is exactly the
transformed mapping. -/
theorem C6_apply_external_target_roundtrip_witness :
    runningManager.is_running = true ∧
    runningManager.robot = some ⟨false, false⟩ ∧
    (runningManager.actionPipeline [("shoulder_pan", 1.5)]).isEmpty = false ∧
    (runningManager.apply_leader_positions [("shoulder_pan", 1.5)]).1 = true ∧
    (runningManager.apply_leader_positions [("shoulder_pan", 1.5)]).2.get_current_action =
      some (runningManager.actionPipeline [("shoulder_pan", 1.5)]) :=
  ⟨rfl, rfl, by rfl,
   ((C6_apply_external_target_roundtrip runningManager [("shoulder_pan", 1.5)]).1
      ⟨false, false⟩ rfl rfl rfl (by rfl)).1,
   ((C6_apply_external_target_roundtrip runningManager [("shoulder_pan", 1.5)]).1
      ⟨false, false⟩ rfl rfl rfl (by rfl)).2⟩

/-- The connection-retry loop only ever emits connection attempts and
backoff sleeps. -/
theorem mem_retryConnect (ok : Nat → Bool) (e : WebEffect)
    (he : e ∈ (retryConnect ok).2) :
    (∃ j, e = .connectAttempt j) ∨ ∃ d, e = .backoffSleep d := by
  have hr : List.range 3 = [0, 1, 2] := rfl
  by_cases h0 : ok 0 <;> by_cases h1 : ok 1 <;> by_cases h2 : ok 2 <;>
    simp [retryConnect, hr, connectStep, h0, h1, h2] at he <;>
    rcases he with rfl | rfl | rfl | rfl | rfl <;>
    first
      | exact Or.inl ⟨_, rfl⟩
      | exact Or.inr ⟨_, rfl⟩

/-- When every connection attempt fails, the retry loop reports failure
after exactly three attempts with backoff sleeps of 2 and then 3
seconds between them. -/
theorem retryConnect_allFail (ok : Nat → Bool) (hf : ∀ i, ok i = false) :
    retryConnect ok = (false,
      [.connectAttempt 0, .backoffSleep 2, .connectAttempt 1, .backoffSleep 3,
       .connectAttempt 2]) := by
  have hr : List.range 3 = [0, 1, 2] := rfl
  simp [retryConnect, hr, connectStep, hf]

/-- Claim C2: on every script-execution request that finds the
ControlLoop running, the loop is stopped first — before any
re-acquisition attempt — and restarted as the very last step, after
the script path has disconnected its robot handle, whatever the
connection attempts and the script did; the loop then runs iff the
restart call succeeds.  If the loop was not running before the
request, it is neither stopped nor started. -/
theorem C2_loop_stopped_then_restarted (s : ServerState) (env : ExecEnv)
    (script : ScriptBehavior) (t : Nat)
    (hE : s.blockly_enabled = true) (hM : s.blockly_manager = true) :
    (s.teleopRunning = true →
        (execute_code s env script t).2.2.head? = some WebEffect.stopTeleop ∧
        (execute_code s env script t).2.2.getLast? = some WebEffect.startTeleop ∧
        (execute_code s env script t).2.1.teleopRunning = env.restartOk) ∧
    (s.teleopRunning = false →
        WebEffect.stopTeleop ∉ (execute_code s env script t).2.2 ∧
        WebEffect.startTeleop ∉ (execute_code s env script t).2.2 ∧
        (execute_code s env script t).2.1.teleopRunning = false) := by
  constructor
  · intro hrun
    refine ⟨?_, ?_, ?_⟩
    · by_cases hc : (retryConnect env.connectOk).1 <;>
        simp [execute_code, hE, hM, hrun, hc]
    · have hlast : ∀ (a : WebEffect) (l l' : List WebEffect), l' ≠ [] →
          (a :: (l ++ l')).getLast? = l'.getLast? := by
        intro a l l' h
        rw [show a :: (l ++ l') = (a :: l) ++ l' from rfl,
            List.getLast?_append_of_ne_nil _ h]
      by_cases hc : (retryConnect env.connectOk).1
      · simp [execute_code, hE, hM, hrun, hc]
        rw [hlast WebEffect.stopTeleop (retryConnect env.connectOk).2
              [WebEffect.runScript, WebEffect.disconnectRobot,
               WebEffect.startTeleop] (by simp)]
        rfl
      · simp [execute_code, hE, hM, hrun, hc]
        rw [hlast WebEffect.stopTeleop (retryConnect env.connectOk).2
              [WebEffect.disconnectRobot, WebEffect.startTeleop] (by simp)]
        rfl
    · by_cases hc : (retryConnect env.connectOk).1 <;>
        simp [execute_code, hE, hM, hrun, hc]
  · intro hrun
    refine ⟨?_, ?_, ?_⟩
    · by_cases hc : (retryConnect env.connectOk).1 <;>
        simp [execute_code, hE, hM, hrun, hc] <;>
        intro hmem <;>
        rcases mem_retryConnect env.connectOk _ hmem with ⟨j, hj⟩ | ⟨d, hd⟩ <;>
        simp_all
    · by_cases hc : (retryConnect env.connectOk).1 <;>
        simp [execute_code, hE, hM, hrun, hc] <;>
        intro hmem <;>
        rcases mem_retryConnect env.connectOk _ hmem with ⟨j, hj⟩ | ⟨d, hd⟩ <;>
        simp_all
    · by_cases hc : (retryConnect env.connectOk).1 <;>
        simp [execute_code, hE, hM, hrun, hc]

/-- Witness for C2 at a concrete request: loop running, first attempt
succeeding, script printing once; the trace begins by stopping the loop
and ends by restarting it. -/
theorem C2_loop_stopped_then_restarted_witness :
    (⟨true, true, true⟩ : ServerState).teleopRunning = true ∧
    (execute_code ⟨true, true, true⟩ ⟨fun _ => true, true⟩
        (.ok "hello" [] 1) 30).2.2.head? = some WebEffect.stopTeleop ∧
    (execute_code ⟨true, true, true⟩ ⟨fun _ => true, true⟩
        (.ok "hello" [] 1) 30).2.2.getLast? = some WebEffect.startTeleop ∧
    (execute_code ⟨true, true, true⟩ ⟨fun _ => true, true⟩
        (.ok "hello" [] 1) 30).2.1.teleopRunning = true :=
  ⟨rfl,
   ((C2_loop_stopped_then_restarted ⟨true, true, true⟩ ⟨fun _ => true, true⟩
       (.ok "hello" [] 1) 30 rfl rfl).1 rfl).1,
   ((C2_loop_stopped_then_restarted ⟨true, true, true⟩ ⟨fun _ => true, true⟩
       (.ok "hello" [] 1) 30 rfl rfl).1 rfl).2.1,
   ((C2_loop_stopped_then_restarted ⟨true, true, true⟩ ⟨fun _ => true, true⟩
       (.ok "hello" [] 1) 30 rfl rfl).1 rfl).2.2⟩

/-- Counterexample to claim C1 as stated: with teleoperation running,
Blockly enabled and every re-acquisition attempt failing, the request
does return the distinct device-unavailable 503 — but afterwards the
ControlLoop has been restarted by the `finally` block, so the
arbitration state is OwnedByLoop (teleoperation running), not Idle, and
the full trace shows the stop, the three attempts with their backoffs,
no script run, and the restart. -/
theorem C1_counterexample_not_idle_after_failure :
    (execute_code ⟨true, true, true⟩ ⟨fun _ => false, true⟩ (.ok "" [] 0) 30).1 =
      .httpError 503 deviceUnavailableDetail ∧
    (execute_code ⟨true, true, true⟩ ⟨fun _ => false, true⟩ (.ok "" [] 0) 30).2.1.teleopRunning
      = true ∧
    (execute_code ⟨true, true, true⟩ ⟨fun _ => false, true⟩ (.ok "" [] 0) 30).2.2 =
      [.stopTeleop, .connectAttempt 0, .backoffSleep 2, .connectAttempt 1,
       .backoffSleep 3, .connectAttempt 2, .disconnectRobot, .startTeleop] := by
  refine ⟨rfl, rfl, rfl⟩

/-- Claim C1 as amended: when a script-execution request must reclaim
the follower from a running ControlLoop, re-acquisition is attempted up
to exactly 3 times with strictly increasing backoff delays between
attempts; if all 3 fail, the request returns the distinct
device-unavailable failure to the caller without running the script and
without crashing the host, and the ControlLoop is automatically
restarted — the arbitration state afterwards is OwnedByLoop whenever
the restart succeeds (not Idle), leaving the system available for a
future attempt. -/
theorem C1_amended_three_retries_then_unavailable (s : ServerState) (env : ExecEnv)
    (script : ScriptBehavior) (t : Nat)
    (hE : s.blockly_enabled = true) (hM : s.blockly_manager = true)
    (hR : s.teleopRunning = true)
    (hFail : ∀ i, env.connectOk i = false) :
    (execute_code s env script t).1 = .httpError 503 deviceUnavailableDetail ∧
    connectAttemptsOf (execute_code s env script t).2.2 = [0, 1, 2] ∧
    backoffsOf (execute_code s env script t).2.2 = [2, 3] ∧
    List.Chain' (· < ·) (backoffsOf (execute_code s env script t).2.2) ∧
    WebEffect.runScript ∉ (execute_code s env script t).2.2 ∧
    WebEffect.startTeleop ∈ (execute_code s env script t).2.2 ∧
    (execute_code s env script t).2.1.teleopRunning = env.restartOk := by
  have hr := retryConnect_allFail env.connectOk hFail
  have hc : (retryConnect env.connectOk).1 = false := by rw [hr]
  refine ⟨?_, ?_, ?_, ?_, ?_, ?_, ?_⟩ <;>
    simp [execute_code, hE, hM, hR, hc, hr, connectAttemptsOf, backoffsOf,
          List.Chain']

/-- Witness for C1 as amended at a concrete all-attempts-fail request. -/
theorem C1_amended_three_retries_then_unavailable_witness :
    (⟨true, true, true⟩ : ServerState).teleopRunning = true ∧
    (∀ i, (⟨fun _ => false, true⟩ : ExecEnv).connectOk i = false) ∧
    connectAttemptsOf
      (execute_code ⟨true, true, true⟩ ⟨fun _ => false, true⟩ (.ok "x" [] 0) 30).2.2 =
      [0, 1, 2] ∧
    backoffsOf
      (execute_code ⟨true, true, true⟩ ⟨fun _ => false, true⟩ (.ok "x" [] 0) 30).2.2 =
      [2, 3] ∧
    (execute_code ⟨true, true, true⟩ ⟨fun _ => false, true⟩ (.ok "x" [] 0) 30).2.1.teleopRunning
      = true :=
  ⟨rfl, fun _ => rfl,
   (C1_amended_three_retries_then_unavailable ⟨true, true, true⟩
      ⟨fun _ => false, true⟩ (.ok "x" [] 0) 30 rfl rfl rfl (fun _ => rfl)).2.1,
   (C1_amended_three_retries_then_unavailable ⟨true, true, true⟩
      ⟨fun _ => false, true⟩ (.ok "x" [] 0) 30 rfl rfl rfl (fun _ => rfl)).2.2.1,
   (C1_amended_three_retries_then_unavailable ⟨true, true, true⟩
      ⟨fun _ => false, true⟩ (.ok "x" [] 0) 30 rfl rfl rfl (fun _ => rfl)).2.2.2.2.2.2⟩

/-- Mutating one heap address leaves every other address unchanged. -/
theorem Heap.get_mutate_ne [Inhabited α] (h : Heap α) (a b : Addr) (v : α)
    (hne : a ≠ b) : (h.mutate a v).get b = h.get b := by
  simp [Heap.mutate, Heap.get, List.getD_eq_getD_get?, List.get?_eq_getElem?,
        List.getElem?_set_ne hne]

/-- Claim C10: the read accessors hand out copies, never aliases.  For
`get_current_action` (with a truthy stored dict) and for `get_frame`
(with any stored frame): the stored field comes back unchanged, the
returned address is fresh — distinct from the stored one — its contents
equal the stored contents, the read leaves the stored object's contents
intact, and any caller mutation through the returned address leaves the
stored object's contents intact. -/
theorem C10_reads_return_copies (hd : Heap Dict) (hf : Heap Frame) (a b : Addr)
    (ha : a < hd.objects.length) (hb : b < hf.objects.length)
    (hne : (hd.get a).isEmpty = false) :
    ((getCurrentActionRef (some a) hd).2.1 = some a ∧
      ∃ a', (getCurrentActionRef (some a) hd).1 = some a' ∧ a' ≠ a ∧
        (getCurrentActionRef (some a) hd).2.2.get a' = hd.get a ∧
        (getCurrentActionRef (some a) hd).2.2.get a = hd.get a ∧
        ∀ v : Dict,
          ((getCurrentActionRef (some a) hd).2.2.mutate a' v).get a = hd.get a) ∧
    ((getFrameRef (some b) hf).2.1 = some b ∧
      ∃ b', (getFrameRef (some b) hf).1 = some b' ∧ b' ≠ b ∧
        (getFrameRef (some b) hf).2.2.get b' = hf.get b ∧
        (getFrameRef (some b) hf).2.2.get b = hf.get b ∧
        ∀ v : Frame,
          ((getFrameRef (some b) hf).2.2.mutate b' v).get b = hf.get b) := by
  have hxd : getCurrentActionRef (some a) hd =
      (some hd.objects.length, some a, ⟨hd.objects ++ [hd.get a]⟩) := by
    simp [getCurrentActionRef, hne, Heap.alloc]
  have hxf : getFrameRef (some b) hf =
      (some hf.objects.length, some b, ⟨hf.objects ++ [hf.get b]⟩) := by
    simp [getFrameRef, Heap.alloc]
  have hfreshd : (⟨hd.objects ++ [hd.get a]⟩ : Heap Dict).get hd.objects.length =
      hd.get a := by
    show (hd.objects ++ [hd.get a]).getD hd.objects.length default = _
    rw [List.getD_append_right _ _ _ _ (le_refl _)]
    simp
  have holdd : (⟨hd.objects ++ [hd.get a]⟩ : Heap Dict).get a = hd.get a := by
    show (hd.objects ++ [hd.get a]).getD a default = _
    rw [List.getD_append _ _ _ _ ha]
    rfl
  have hfreshf : (⟨hf.objects ++ [hf.get b]⟩ : Heap Frame).get hf.objects.length =
      hf.get b := by
    show (hf.objects ++ [hf.get b]).getD hf.objects.length default = _
    rw [List.getD_append_right _ _ _ _ (le_refl _)]
    simp
  have holdf : (⟨hf.objects ++ [hf.get b]⟩ : Heap Frame).get b = hf.get b := by
    show (hf.objects ++ [hf.get b]).getD b default = _
    rw [List.getD_append _ _ _ _ hb]
    rfl
  constructor
  · rw [hxd]
    refine ⟨rfl, hd.objects.length, rfl, Nat.ne_of_gt ha, hfreshd, holdd, ?_⟩
    intro v
    rw [Heap.get_mutate_ne _ _ _ _ (Nat.ne_of_gt ha), holdd]
  · rw [hxf]
    refine ⟨rfl, hf.objects.length, rfl, Nat.ne_of_gt hb, hfreshf, holdf, ?_⟩
    intro v
    rw [Heap.get_mutate_ne _ _ _ _ (Nat.ne_of_gt hb), holdf]

/-- Witness for C10 on a two-object dict heap and a one-object frame
heap: the reads return fresh copies whose mutation cannot reach the
stored objects. -/
theorem C10_reads_return_copies_witness :
    ((0 : Addr) < (⟨[[("a", 1.0)], []]⟩ : Heap Dict).objects.length ∧
      (0 : Addr) < (⟨[[9, 9]]⟩ : Heap Frame).objects.length ∧
      ((⟨[[("a", 1.0)], []]⟩ : Heap Dict).get 0).isEmpty = false) ∧
    ((getCurrentActionRef (some 0) ⟨[[("a", 1.0)], []]⟩).2.1 = some 0 ∧
      ∃ a', (getCurrentActionRef (some 0) ⟨[[("a", 1.0)], []]⟩).1 = some a' ∧
        a' ≠ 0 ∧
        (getCurrentActionRef (some 0) ⟨[[("a", 1.0)], []]⟩).2.2.get a' =
          (⟨[[("a", 1.0)], []]⟩ : Heap Dict).get 0 ∧
        (getCurrentActionRef (some 0) ⟨[[("a", 1.0)], []]⟩).2.2.get 0 =
          (⟨[[("a", 1.0)], []]⟩ : Heap Dict).get 0 ∧
        ∀ v : Dict,
          ((getCurrentActionRef (some 0) ⟨[[("a", 1.0)], []]⟩).2.2.mutate a' v).get 0 =
            (⟨[[("a", 1.0)], []]⟩ : Heap Dict).get 0) :=
  ⟨⟨by decide, by decide, rfl⟩,
   (C10_reads_return_copies ⟨[[("a", 1.0)], []]⟩ ⟨[[9, 9]]⟩ 0 0
      (by decide) (by decide) rfl).1⟩

end TeleopLerobot
